import Mathlib

/-!
Shallow embedding of the WeathAware flight-briefing service
(src/main.py and src/schemas.py) and proofs of the specified
authentication / access-control properties.

Conventions of the embedding:
* Time is a natural number of seconds (POSIX timestamp); the clock is an
  explicit `now` parameter (the spec makes the clock injectable).
* The process-wide signing secret is an explicit `secret` parameter.
* A raised `HTTPException` becomes the `.error` branch of `Except`.
* Handlers that write to the document store return the (possibly updated)
  store next to their `Except` result; an exception leaves the store as it
  was, exactly as in the Python code where every raise happens before the
  single `create_document` call of the handler.
* Python `str.upper()` is modelled character-wise by `pyUpper`.
-/

namespace WeathAware

/-- A FastAPI `HTTPException`: status code and detail string. -/
structure HTTPError where
  status : Nat
  detail : String
deriving DecidableEq, Repr

/-- The JWT claim set used by the service: optional subject claim `sub`
and the absolute expiry timestamp `exp` (seconds). -/
structure Payload where
  sub : Option String
  exp : Nat
deriving DecidableEq, Repr

/-- A token string as presented by a client: either not parseable as a JWT
at all, or a well-formed JWT carrying a payload and signed with some
secret. -/
inductive Jwt where
  | malformed (raw : String)
  | signed (payload : Payload) (secret : String)
deriving DecidableEq, Repr

/-- The error values `jose.jwt.decode` can raise (all subclasses of
`JWTError` in the library). -/
inductive JWTError where
  | malformedToken
  | invalidSignature
  | expiredSignature
deriving DecidableEq, Repr

/-- Modelled from the spec: `jose.jwt.encode(payload, secret, HS256)` —
produces a well-formed token carrying the payload, signed with `secret`
(spec §4.2: a signed token encoding the claims). -/
def jwt_encode (payload : Payload) (secret : String) : Jwt :=
  Jwt.signed payload secret

/-- Modelled from the spec: `jose.jwt.decode(token, secret, [HS256])` —
spec §4.2: verification fails (returns `Invalid`, here an `Except.error`)
when the token is malformed, its signature does not verify against
`secret`, or `now >= expiry`; otherwise it yields the payload. -/
def jwt_decode (token : Jwt) (secret : String) (now : Nat) :
    Except JWTError Payload :=
  match token with
  | .malformed _ => .error .malformedToken
  | .signed p s =>
    if s ≠ secret then .error .invalidSignature
    else if p.exp ≤ now then .error .expiredSignature
    else .ok p

/-- Constant `ACCESS_TOKEN_EXPIRE_MINUTES = 60 * 12` (src/main.py line 16). -/
def ACCESS_TOKEN_EXPIRE_MINUTES : Nat := 60 * 12

/-- Function `create_access_token` (src/main.py lines 62-65): copies the claims it
is given (`{"sub": ...}` at both call sites, abstracted here to an
optional subject), overrides `exp` with `now + ACCESS_TOKEN_EXPIRE_MINUTES
* 60`, and signs with the process secret. -/
def create_access_token (sub : Option String) (now : Nat) (secret : String) : Jwt :=
  jwt_encode { sub := sub, exp := now + ACCESS_TOKEN_EXPIRE_MINUTES * 60 } secret

/-- Schema `User` (src/schemas.py lines 11-16). `created_at` stays `none`: the
handlers never set it. -/
structure User where
  name : String
  email : String
  password_hash : String
  created_at : Option Nat := none
  is_active : Bool := true
deriving DecidableEq, Repr

/-- Schema `FlightPlan` (src/schemas.py lines 18-27), the stored document shape. -/
structure FlightPlan where
  user_id : String
  callsign : Option String
  origin : String
  destination : String
  alternates : List String
  route : Option String
  departure_time : Nat
  cruise_altitude : Option String
  aircraft_type : Option String
deriving DecidableEq, Repr

/-- A dynamically-typed value inside the free-form `dict` fields of a
briefing (hazards, METAR/TAF, NOTAMs, PIREPs, overlays); the spec treats
these as opaque payloads. -/
inductive PyVal where
  | str (s : String)
  | list (xs : List PyVal)
  | dict (entries : List (String × PyVal))

/-- A Python `dict` with string keys, as stored in briefing fields. -/
abbrev PyDict := List (String × PyVal)

/-- Schema `Briefing` (src/schemas.py lines 29-41), the stored document shape. -/
structure Briefing where
  user_id : String
  flight_plan_id : String
  summary : String
  hazards : List PyDict := []
  risk_level : String := "LOW"
  metar : PyDict := []
  taf : PyDict := []
  notams : List PyDict := []
  pireps : List PyDict := []
  alternates : List PyDict := []
  overlays : PyDict := []
  created_at : Option Nat := none

/-- A user document as returned by the store: the schema fields plus the
generated `_id` (stringified, since every use in main.py is `str(_id)`). -/
structure StoredUser extends User where
  id : String
deriving DecidableEq, Repr

/-- A flight-plan document as returned by the store. -/
structure StoredFlightPlan extends FlightPlan where
  id : String
deriving DecidableEq, Repr

/-- A briefing document as returned by the store. -/
structure StoredBriefing extends Briefing where
  id : String

/-- Modelled from the spec: the Document Store state (§6) — one collection
per record type plus the id generator. Records keep insertion order (the
store's natural order). -/
structure Store where
  users : List StoredUser
  flightplans : List StoredFlightPlan
  briefings : List StoredBriefing
  nextId : Nat

/-- Modelled from the spec: `get_documents("user", {"email": email},
limit)` — equality filter on the `email` field over the `user` collection,
truncated to `limit` records (§6). -/
def get_documents_user_by_email (store : Store) (email : String) (limit : Nat) :
    List StoredUser :=
  (store.users.filter (fun u => u.email == email)).take limit

/-- Modelled from the spec: `get_documents("flightplan", {"user_id": uid},
limit)` — equality filter on the `user_id` field over the `flightplan`
collection, truncated to `limit` records (§6). -/
def get_documents_flightplan_by_user (store : Store) (uid : String) (limit : Nat) :
    List StoredFlightPlan :=
  (store.flightplans.filter (fun p => p.user_id == uid)).take limit

/-- Modelled from the spec: `db["flightplan"]._ensure_objectid(s)` —
converts the request's id string to the store's id representation; with
string ids this is the identity. -/
def ensure_objectid (s : String) : String := s

/-- Modelled from the spec: `get_documents("flightplan", {"_id": {"$eq":
oid}})` — equality filter on the document id, no limit (§6). -/
def get_documents_flightplan_by_id (store : Store) (oid : String) :
    List StoredFlightPlan :=
  store.flightplans.filter (fun p => p.id == oid)

/-- Modelled from the spec: `create_document("user", doc)` — inserts the
record at the end of the `user` collection under a fresh id and returns
the id (§6). -/
def create_document_user (store : Store) (doc : User) : String × Store :=
  (toString store.nextId,
   { store with
       users := store.users ++ [{ toUser := doc, id := toString store.nextId }],
       nextId := store.nextId + 1 })

/-- Modelled from the spec: `create_document("flightplan", doc)` (§6). -/
def create_document_flightplan (store : Store) (doc : FlightPlan) : String × Store :=
  (toString store.nextId,
   { store with
       flightplans := store.flightplans ++ [{ toFlightPlan := doc, id := toString store.nextId }],
       nextId := store.nextId + 1 })

/-- Modelled from the spec: `create_document("briefing", doc)` (§6). -/
def create_document_briefing (store : Store) (doc : Briefing) : String × Store :=
  (toString store.nextId,
   { store with
       briefings := store.briefings ++ [{ toBriefing := doc, id := toString store.nextId }],
       nextId := store.nextId + 1 })

/-- Function `get_current_user` (src/main.py lines 68-82): 401 when no token is
presented; decode the token (any `JWTError` → 401 "Invalid token"); 401
when the payload has no `sub`; look up one user by email; 401 when none
matches; otherwise return the user document. -/
def get_current_user (store : Store) (secret : String) (now : Nat)
    (token : Option Jwt) : Except HTTPError StoredUser :=
  match token with
  | none => .error ⟨401, "Not authenticated"⟩
  | some tok =>
    match jwt_decode tok secret now with
    | .error _ => .error ⟨401, "Invalid token"⟩
    | .ok payload =>
      match payload.sub with
      | none => .error ⟨401, "Invalid token"⟩
      | some email =>
        match get_documents_user_by_email store email 1 with
        | [] => .error ⟨401, "User not found"⟩
        | u :: _ => .ok u

/-- The failure condition of user resolution exactly as claim C1
enumerates it, stated from the spec's words for comparison with the
code's behaviour: no token presented, malformed token, expired token, or
token subject matching no stored user (a missing subject matches no
stored user). -/
def c1_failure_cases (store : Store) (now : Nat) (token : Option Jwt) : Bool :=
  match token with
  | none => true
  | some (.malformed _) => true
  | some (.signed p _) =>
    decide (p.exp ≤ now) || store.users.all (fun u => some u.email != p.sub)

/-- The amended failure condition: claim C1's cases plus a well-formed
token whose signature does not verify against the current secret. -/
def resolution_failure_cases (store : Store) (secret : String) (now : Nat)
    (token : Option Jwt) : Bool :=
  match token with
  | none => true
  | some (.malformed _) => true
  | some (.signed p s) =>
    s != secret || decide (p.exp ≤ now) ||
      store.users.all (fun u => some u.email != p.sub)

/-- Python `str.upper()`, modelled character-wise (faithful on the ASCII
ICAO codes the service handles). -/
def pyUpper (s : String) : String :=
  ⟨s.data.map Char.toUpper⟩

/-- The response body of both auth endpoints (src/main.py lines 31-33). -/
structure TokenResponse where
  access_token : Jwt
  token_type : String := "bearer"
deriving DecidableEq, Repr

/-- Handler `register` (src/main.py lines 90-99): 400 "Email already registered"
when a user with this email exists; otherwise hash the password, store the
`User`, and return a fresh token for the email. The password hasher is an
explicit black-box parameter (spec §4.1 treats it as one). -/
def register (store : Store) (hash : String → String) (secret : String)
    (now : Nat) (name email password : String) :
    Except HTTPError TokenResponse × Store :=
  let existing := get_documents_user_by_email store email 1
  if existing ≠ [] then
    (.error ⟨400, "Email already registered"⟩, store)
  else
    let hashed := hash password
    let user : User := { name := name, email := email, password_hash := hashed }
    let inserted := create_document_user store user
    let token := create_access_token (some email) now secret
    (.ok { access_token := token }, inserted.2)

/-- Schema `FlightPlanIn` (src/main.py lines 47-55), the request body before
pydantic validation; identical field-wise to the validated shape, so one
structure serves both with validity expressed by `flightPlanIn_valid`. -/
structure FlightPlanIn where
  callsign : Option String
  origin : String
  destination : String
  alternates : List String
  route : Option String
  departure_time : Nat
  cruise_altitude : Option String
  aircraft_type : Option String
deriving DecidableEq, Repr

/-- The pydantic constraints on `FlightPlanIn` (src/main.py lines 49-50):
`origin` and `destination` carry `min_length=3, max_length=4`; no other
field is constrained — in particular `alternates` is not. -/
def flightPlanIn_valid (fp : FlightPlanIn) : Bool :=
  3 ≤ fp.origin.length && fp.origin.length ≤ 4 &&
  (3 ≤ fp.destination.length && fp.destination.length ≤ 4)

/-- The pydantic constraints on the stored `FlightPlan` (src/schemas.py
lines 21-22): the same 3-4 length bounds on `origin` and `destination`,
nothing on `alternates`. -/
def flightPlan_valid (fp : FlightPlan) : Bool :=
  3 ≤ fp.origin.length && fp.origin.length ≤ 4 &&
  (3 ≤ fp.destination.length && fp.destination.length ≤ 4)

/-- Handler `create_flight_plan` (src/main.py lines 114-129): resolve the user,
build the stored `FlightPlan` tagged with `str(user._id)` with origin,
destination and alternates upper-cased and the other fields copied, insert
it, return the generated id. Constructing `FlightPlan(...)` re-runs the
schema's own validation; its failure would escape as a server error (500),
modelled by the final branch. -/
def create_flight_plan (store : Store) (secret : String) (now : Nat)
    (fp : FlightPlanIn) (token : Option Jwt) :
    Except HTTPError String × Store :=
  match get_current_user store secret now token with
  | .error e => (.error e, store)
  | .ok user =>
    let doc : FlightPlan :=
      { user_id := user.id,
        callsign := fp.callsign,
        origin := pyUpper fp.origin,
        destination := pyUpper fp.destination,
        alternates := fp.alternates.map pyUpper,
        route := fp.route,
        departure_time := fp.departure_time,
        cruise_altitude := fp.cruise_altitude,
        aircraft_type := fp.aircraft_type }
    if flightPlan_valid doc then
      let inserted := create_document_flightplan store doc
      (.ok inserted.1, inserted.2)
    else
      (.error ⟨500, "Internal Server Error"⟩, store)

/-- The `POST /flightplan` endpoint as seen by a client: FastAPI runs the
pydantic validation of `FlightPlanIn` before the handler and answers 422
on failure, without touching the store. -/
def create_flight_plan_endpoint (store : Store) (secret : String) (now : Nat)
    (fp : FlightPlanIn) (token : Option Jwt) :
    Except HTTPError String × Store :=
  if flightPlanIn_valid fp then create_flight_plan store secret now fp token
  else (.error ⟨422, "Unprocessable Entity"⟩, store)

/-- The `GET /dashboard` response body (src/main.py line 136):
`{"user": {"name", "email"}, "recent_plans": plans}`. -/
structure DashboardResponse where
  user_name : String
  user_email : String
  recent_plans : List StoredFlightPlan
deriving DecidableEq, Repr

/-- Handler `dashboard` (src/main.py lines 132-136): resolve the user, query the
`flightplan` collection filtered by `user_id = str(user._id)` with limit
20, return the user summary with those plans. Performs no write. -/
def dashboard (store : Store) (secret : String) (now : Nat)
    (token : Option Jwt) : Except HTTPError DashboardResponse :=
  match get_current_user store secret now token with
  | .error e => .error e
  | .ok user =>
    let plans := get_documents_flightplan_by_user store user.id 20
    .ok { user_name := user.name, user_email := user.email, recent_plans := plans }

/-- The static placeholder summary built in `generate_briefing`
(src/main.py lines 148-151, two adjacent string literals). -/
def briefing_summary : String :=
  "Winds aloft moderate, isolated TS enroute, bases 3k ft, VFR marginal near destination after 21Z; fuel/alt review advised."

/-- The `POST /brief` response body (src/main.py line 168). -/
structure BriefResponse where
  id : String
  summary : String
  risk : String
deriving DecidableEq, Repr

/-- The placeholder `Briefing` document `generate_briefing` constructs
(src/main.py lines 153-165), as a function of the resolving user's id
and the requested flight-plan id. -/
def placeholder_briefing (user_id flight_plan_id : String) : Briefing :=
  { user_id := user_id,
    flight_plan_id := flight_plan_id,
    summary := briefing_summary,
    hazards := [[("type", .str "TS"), ("severity", .str "MOD"), ("location", .str "enroute")]],
    risk_level := "MEDIUM",
    metar := [("origin", .str "METAR KJFK 121651Z ...")],
    taf := [("destination", .str "TAF KLAX 121720Z ...")],
    notams := [[("id", .str "A1234"), ("text", .str "RWY 12/30 closed")]],
    pireps := [[("loc", .str "DCT"), ("wx", .str "MOD TURB FL180")]],
    alternates := [[("icao", .str "KBUR"), ("category", .str "Nearby")]],
    overlays := [("route", .dict [("type", .str "LineString"), ("coordinates", .list [])])] }

/-- Handler `generate_briefing` (src/main.py lines 139-168): resolve the user,
look up the flight plan by id alone (no owner filter), 404 when absent,
otherwise build the placeholder `Briefing` tagged with the resolving
user's id, insert it, and return id, summary and risk. -/
def generate_briefing (store : Store) (secret : String) (now : Nat)
    (flight_plan_id : String) (token : Option Jwt) :
    Except HTTPError BriefResponse × Store :=
  match get_current_user store secret now token with
  | .error e => (.error e, store)
  | .ok user =>
    let plans := get_documents_flightplan_by_id store (ensure_objectid flight_plan_id)
    match plans with
    | [] => (.error ⟨404, "Flight plan not found"⟩, store)
    | _ :: _ =>
      let briefing := placeholder_briefing user.id flight_plan_id
      let inserted := create_document_briefing store briefing
      (.ok { id := inserted.1, summary := briefing.summary, risk := briefing.risk_level },
       inserted.2)

/-! General lemmas about the embedding -/

/-- Character-wise upper-casing preserves the length of a string. -/
theorem pyUpper_length (s : String) : (pyUpper s).length = s.length :=
  List.length_map s.data Char.toUpper

/-- Every failure of `get_current_user` carries HTTP status 401. -/
theorem get_current_user_error_status (store : Store) (secret : String)
    (now : Nat) (token : Option Jwt) (e : HTTPError)
    (h : get_current_user store secret now token = .error e) : e.status = 401 := by
  unfold get_current_user at h
  split at h
  · injection h with h
    subst h
    rfl
  · split at h
    · injection h with h
      subst h
      rfl
    · split at h
      · injection h with h
        subst h
        rfl
      · split at h
        · injection h with h
          subst h
          rfl
        · exact Except.noConfusion h

/-! Claim theorems -/

/-- C1 as stated is false: a well-formed, unexpired token whose subject
matches a stored user but which is signed with "other-secret" instead of
the current secret "dev-secret" is rejected by user resolution, although
it falls in none of the four failure cases the claim enumerates. -/
theorem c1_counterexample :
    c1_failure_cases
        ⟨[{ toUser := { name := "Ann", email := "a@b.c", password_hash := "h" }, id := "7" }],
         [], [], 8⟩
        0 (some (Jwt.signed ⟨some "a@b.c", 100⟩ "other-secret")) = false
    ∧ get_current_user
        ⟨[{ toUser := { name := "Ann", email := "a@b.c", password_hash := "h" }, id := "7" }],
         [], [], 8⟩
        "dev-secret" 0 (some (Jwt.signed ⟨some "a@b.c", 100⟩ "other-secret")) =
      .error ⟨401, "Invalid token"⟩ :=
  ⟨by decide, rfl⟩

/-- C1 amended: user resolution fails (always with HTTP 401) exactly
when no token is presented, the token is malformed, its signature does
not verify against the current secret, it is expired, or its subject
matches no stored user; in every other case it returns a stored user
whose email equals the token's subject. -/
theorem c1_user_resolution (store : Store) (secret : String) (now : Nat)
    (token : Option Jwt) :
    ((∃ e, get_current_user store secret now token = .error e ∧ e.status = 401) ↔
        resolution_failure_cases store secret now token = true)
    ∧ (resolution_failure_cases store secret now token = false →
        ∃ u p s, token = some (Jwt.signed p s)
          ∧ get_current_user store secret now token = .ok u
          ∧ u ∈ store.users ∧ p.sub = some u.email) := by
  rcases token with _ | tok
  · exact ⟨⟨fun _ => rfl, fun _ => ⟨⟨401, "Not authenticated"⟩, rfl, rfl⟩⟩,
      fun hf => by simp [resolution_failure_cases] at hf⟩
  · rcases tok with raw | ⟨p, s⟩
    · exact ⟨⟨fun _ => rfl, fun _ => ⟨⟨401, "Invalid token"⟩, rfl, rfl⟩⟩,
        fun hf => by simp [resolution_failure_cases] at hf⟩
    · by_cases hs : s = secret
      · subst hs
        by_cases he : p.exp ≤ now
        · refine ⟨⟨fun _ => by simp [resolution_failure_cases, he], fun _ => ?_⟩, fun hf => ?_⟩
          · exact ⟨⟨401, "Invalid token"⟩, by simp [get_current_user, jwt_decode, he], rfl⟩
          · simp [resolution_failure_cases, he] at hf
        · rcases hsub : p.sub with _ | email
          · refine ⟨⟨fun _ => ?_, fun _ => ?_⟩, fun hf => ?_⟩
            · simp [resolution_failure_cases, he, hsub]
            · exact ⟨⟨401, "Invalid token"⟩,
                by simp [get_current_user, jwt_decode, he, hsub], rfl⟩
            · simp [resolution_failure_cases, he, hsub] at hf
          · rcases hq : store.users.filter (fun u => u.email == email) with _ | ⟨u, rest⟩
            · refine ⟨⟨fun _ => ?_, fun _ => ?_⟩, fun hf => ?_⟩
              · simp [resolution_failure_cases, he, hsub]
                intro v hv
                have hv2 := (List.filter_eq_nil_iff.mp hq) v hv
                simpa using hv2
              · refine ⟨⟨401, "User not found"⟩, ?_, rfl⟩
                simp [get_current_user, jwt_decode, get_documents_user_by_email,
                  he, hsub, hq]
              · exfalso
                simp [resolution_failure_cases, he, hsub] at hf
                obtain ⟨v, hv, hveq⟩ := hf
                have hv2 := (List.filter_eq_nil_iff.mp hq) v hv
                simp [hveq] at hv2
            · have hmem : u ∈ store.users ∧ u.email = email := by
                have h1 := List.mem_filter.mp (hq ▸ List.mem_cons_self u rest)
                exact ⟨h1.1, by simpa using h1.2⟩
              have hok : get_current_user store s now
                  (some (Jwt.signed p s)) = .ok u := by
                simp [get_current_user, jwt_decode, get_documents_user_by_email,
                  he, hsub, hq]
              refine ⟨⟨?_, fun ht => ?_⟩, fun _ => ?_⟩
              · rintro ⟨e, he2, -⟩
                rw [hok] at he2
                exact Except.noConfusion he2
              · exfalso
                simp [resolution_failure_cases, he] at ht
                have ht2 := ht u hmem.1
                simp [hsub, hmem.2] at ht2
              · exact ⟨u, p, s, rfl, hok, hmem.1, by rw [hsub, hmem.2]⟩
      · refine ⟨⟨fun _ => by simp [resolution_failure_cases, hs], fun _ => ?_⟩, fun hf => ?_⟩
        · exact ⟨⟨401, "Invalid token"⟩, by simp [get_current_user, jwt_decode, hs], rfl⟩
        · simp [resolution_failure_cases, hs] at hf

/-- Witness for C1's amended success case at a concrete input: with a
valid token for "a@b.c" under the current secret, resolution returns a
stored user whose email is the token's subject. -/
theorem c1_user_resolution_witness :
    resolution_failure_cases
        ⟨[{ toUser := { name := "Ann", email := "a@b.c", password_hash := "h" }, id := "7" }],
         [], [], 8⟩
        "dev-secret" 0 (some (Jwt.signed ⟨some "a@b.c", 100⟩ "dev-secret")) = false
    ∧ ∃ u p s,
        (some (Jwt.signed ⟨some "a@b.c", 100⟩ "dev-secret") : Option Jwt) =
          some (Jwt.signed p s)
        ∧ get_current_user
            ⟨[{ toUser := { name := "Ann", email := "a@b.c", password_hash := "h" }, id := "7" }],
             [], [], 8⟩
            "dev-secret" 0 (some (Jwt.signed ⟨some "a@b.c", 100⟩ "dev-secret")) = .ok u
        ∧ u ∈ Store.users
            ⟨[{ toUser := { name := "Ann", email := "a@b.c", password_hash := "h" }, id := "7" }],
             [], [], 8⟩
        ∧ p.sub = some u.email :=
  ⟨by decide,
   (c1_user_resolution
      ⟨[{ toUser := { name := "Ann", email := "a@b.c", password_hash := "h" }, id := "7" }],
       [], [], 8⟩
      "dev-secret" 0 (some (Jwt.signed ⟨some "a@b.c", 100⟩ "dev-secret"))).2 (by decide)⟩

/-- C2: issuing a token for a subject freezes `expiry = now + 12h` into
the token at issuance; decoding it immediately under the same secret
returns the original subject; and at any time `t` at or past the frozen
expiry, decoding returns the `Invalid` value (an error result, not an
exception). -/
theorem c2_issue_then_verify (sub secret : String) (now t : Nat) :
    create_access_token (some sub) now secret =
      Jwt.signed ⟨some sub, now + ACCESS_TOKEN_EXPIRE_MINUTES * 60⟩ secret
    ∧ jwt_decode (create_access_token (some sub) now secret) secret now =
        .ok ⟨some sub, now + ACCESS_TOKEN_EXPIRE_MINUTES * 60⟩
    ∧ (now + ACCESS_TOKEN_EXPIRE_MINUTES * 60 ≤ t →
        jwt_decode (create_access_token (some sub) now secret) secret t =
          .error .expiredSignature) := by
  refine ⟨rfl, ?_, ?_⟩
  · simp [jwt_decode, create_access_token, jwt_encode, ACCESS_TOKEN_EXPIRE_MINUTES]
  · intro h
    simp [jwt_decode, create_access_token, jwt_encode, h]

/-- Witness for C2 at a concrete subject, secret, and clock: a token
issued at time 5 is rejected as expired at time 5 + 12h. -/
theorem c2_issue_then_verify_witness :
    jwt_decode (create_access_token (some "pilot@example.com") 5 "dev-secret")
        "dev-secret" 43205 = .error .expiredSignature :=
  (c2_issue_then_verify "pilot@example.com" "dev-secret" 5 43205).2.2 (by decide)

/-- C3: a token decodes successfully iff it is well formed, signed with
the current secret, and the current time is strictly before its expiry;
in particular a well-formed token signed with any other secret is always
rejected with a signature failure. -/
theorem c3_token_valid_iff (tok : Jwt) (secret : String) (now : Nat) :
    ((∃ p, jwt_decode tok secret now = .ok p) ↔
      (∃ p, tok = Jwt.signed p secret ∧ now < p.exp))
    ∧ (∀ p s, s ≠ secret →
        jwt_decode (Jwt.signed p s) secret now = .error .invalidSignature) := by
  constructor
  · cases tok with
    | malformed raw => simp [jwt_decode]
    | signed p s =>
      by_cases hs : s = secret
      · subst hs
        by_cases he : p.exp ≤ now
        · simp [jwt_decode, he]
          try omega
        · simp [jwt_decode, he]
          try omega
      · simp [jwt_decode, hs]
  · intro p s hs
    simp [jwt_decode, hs]

/-- Witness for C3 at a concrete token: a token signed with
"other-secret" fails verification against "dev-secret" even though it is
well formed and unexpired. -/
theorem c3_token_valid_iff_witness :
    jwt_decode (Jwt.signed ⟨some "a@b.c", 100⟩ "other-secret") "dev-secret" 0 =
      .error .invalidSignature :=
  (c3_token_valid_iff (Jwt.signed ⟨some "a@b.c", 100⟩ "other-secret")
    "dev-secret" 0).2 ⟨some "a@b.c", 100⟩ "other-secret" (by decide)

/-- C9: a token signed with the current secret and unexpired but carrying
no `sub` claim is rejected with the same 401 "Invalid token" failure as a
malformed token, and the result is the same for every store state — the
rejection happens before any store access (and `get_current_user`
performs no write at all). -/
theorem c9_missing_sub_rejected (store : Store) (secret : String)
    (now e : Nat) (h : now < e) :
    get_current_user store secret now (some (Jwt.signed ⟨none, e⟩ secret)) =
      .error ⟨401, "Invalid token"⟩
    ∧ get_current_user store secret now (some (Jwt.malformed "x")) =
      .error ⟨401, "Invalid token"⟩ := by
  constructor
  · simp [get_current_user, jwt_decode, Nat.not_le.mpr h]
  · simp [get_current_user, jwt_decode]

/-- Witness for C9 on a store that does contain a user: the no-`sub`
token is still rejected. -/
theorem c9_missing_sub_rejected_witness :
    get_current_user
        ⟨[{ toUser := { name := "Ann", email := "a@b.c", password_hash := "h" }, id := "0" }],
         [], [], 1⟩
        "dev-secret" 0 (some (Jwt.signed ⟨none, 100⟩ "dev-secret")) =
      .error ⟨401, "Invalid token"⟩ :=
  (c9_missing_sub_rejected
    ⟨[{ toUser := { name := "Ann", email := "a@b.c", password_hash := "h" }, id := "0" }],
     [], [], 1⟩
    "dev-secret" 0 100 (by decide)).1

/-- C5: registering an email that already exists in the user store fails
with 400 `DuplicateEmail` and stores nothing; registering a fresh email
stores exactly one `User` carrying the hashed password, and the returned
token resolves on the updated store to a user whose email equals the
registered email exactly. -/
theorem c5_register (store : Store) (hash : String → String) (secret : String)
    (now : Nat) (name email password : String) :
    ((∃ u ∈ store.users, u.email = email) →
        register store hash secret now name email password =
          (.error ⟨400, "Email already registered"⟩, store))
    ∧ ((∀ u ∈ store.users, u.email ≠ email) →
        ∃ st,
          register store hash secret now name email password =
            (.ok { access_token := create_access_token (some email) now secret }, st)
          ∧ st.users = store.users ++
              [{ toUser := { name := name, email := email, password_hash := hash password },
                 id := toString store.nextId }]
          ∧ ∃ u, get_current_user st secret now
                (some (create_access_token (some email) now secret)) = .ok u
              ∧ u.email = email) := by
  constructor
  · rintro ⟨u, hu, heq⟩
    rcases hq : store.users.filter (fun v => v.email == email) with _ | ⟨v, rest⟩
    · exact absurd ((List.filter_eq_nil_iff.mp hq) u hu) (by simp [heq])
    · simp [register, get_documents_user_by_email, hq]
  · intro hall
    have hq : store.users.filter (fun v => v.email == email) = [] :=
      List.filter_eq_nil_iff.mpr (fun v hv => by simpa using hall v hv)
    refine ⟨{ store with
        users := store.users ++
          [{ toUser := { name := name, email := email, password_hash := hash password },
             id := toString store.nextId }],
        nextId := store.nextId + 1 }, ?_, rfl, ?_⟩
    · simp [register, get_documents_user_by_email, hq, create_document_user]
    · refine ⟨{ toUser := { name := name, email := email, password_hash := hash password },
                id := toString store.nextId }, ?_, rfl⟩
      simp [get_current_user, create_access_token, jwt_encode, jwt_decode,
        get_documents_user_by_email, List.filter_append, hq,
        ACCESS_TOKEN_EXPIRE_MINUTES]

/-- Witness for C5 on the empty store: registering "a@b.c" succeeds,
stores exactly the one hashed user, and the returned token resolves back
to it. -/
theorem c5_register_witness :
    ∃ st,
      register ⟨[], [], [], 0⟩ (fun p => p ++ "#h") "dev-secret" 0 "Ann" "a@b.c" "pw" =
        (.ok { access_token := create_access_token (some "a@b.c") 0 "dev-secret" }, st)
      ∧ st.users = [] ++
          [{ toUser := { name := "Ann", email := "a@b.c", password_hash := "pw" ++ "#h" },
             id := "0" }]
      ∧ ∃ u, get_current_user st "dev-secret" 0
            (some (create_access_token (some "a@b.c") 0 "dev-secret")) = .ok u
          ∧ u.email = "a@b.c" :=
  (c5_register ⟨[], [], [], 0⟩ (fun p => p ++ "#h") "dev-secret" 0 "Ann" "a@b.c" "pw").2
    (by simp)

/-- Successful flight-plan creation, fully described: shared workhorse
for the claims about `create_flight_plan`. -/
theorem create_flight_plan_ok (store : Store) (secret : String) (now : Nat)
    (fp : FlightPlanIn) (token : Option Jwt) (u : StoredUser)
    (hu : get_current_user store secret now token = .ok u)
    (ho : 3 ≤ fp.origin.length ∧ fp.origin.length ≤ 4)
    (hd : 3 ≤ fp.destination.length ∧ fp.destination.length ≤ 4) :
    create_flight_plan store secret now fp token =
      (.ok (toString store.nextId),
       { store with
           flightplans := store.flightplans ++
             [{ toFlightPlan :=
                  { user_id := u.id,
                    callsign := fp.callsign,
                    origin := pyUpper fp.origin,
                    destination := pyUpper fp.destination,
                    alternates := fp.alternates.map pyUpper,
                    route := fp.route,
                    departure_time := fp.departure_time,
                    cruise_altitude := fp.cruise_altitude,
                    aircraft_type := fp.aircraft_type },
                id := toString store.nextId }],
           nextId := store.nextId + 1 }) := by
  have hvalid : flightPlan_valid
      { user_id := u.id,
        callsign := fp.callsign,
        origin := pyUpper fp.origin,
        destination := pyUpper fp.destination,
        alternates := fp.alternates.map pyUpper,
        route := fp.route,
        departure_time := fp.departure_time,
        cruise_altitude := fp.cruise_altitude,
        aircraft_type := fp.aircraft_type } = true := by
    simp [flightPlan_valid, pyUpper_length]
    omega
  simp [create_flight_plan, hu, hvalid, create_document_flightplan]

/-- C6: with a token resolving to user `u`, creating a flight plan stores
exactly one new plan tagged with `u`'s id, with origin, destination and
every alternate upper-cased and all other submitted fields stored
unchanged, and returns the generated id; a token that fails resolution
makes the handler fail with that same 401 error and write nothing. -/
theorem c6_create_flight_plan (store : Store) (secret : String) (now : Nat)
    (fp : FlightPlanIn) (token : Option Jwt) (u : StoredUser)
    (hu : get_current_user store secret now token = .ok u)
    (ho : 3 ≤ fp.origin.length ∧ fp.origin.length ≤ 4)
    (hd : 3 ≤ fp.destination.length ∧ fp.destination.length ≤ 4) :
    create_flight_plan store secret now fp token =
      (.ok (toString store.nextId),
       { store with
           flightplans := store.flightplans ++
             [{ toFlightPlan :=
                  { user_id := u.id,
                    callsign := fp.callsign,
                    origin := pyUpper fp.origin,
                    destination := pyUpper fp.destination,
                    alternates := fp.alternates.map pyUpper,
                    route := fp.route,
                    departure_time := fp.departure_time,
                    cruise_altitude := fp.cruise_altitude,
                    aircraft_type := fp.aircraft_type },
                id := toString store.nextId }],
           nextId := store.nextId + 1 })
    ∧ ∀ tok2 e, get_current_user store secret now tok2 = .error e →
        create_flight_plan store secret now fp tok2 = (.error e, store)
        ∧ e.status = 401 := by
  refine ⟨create_flight_plan_ok store secret now fp token u hu ho hd, ?_⟩
  intro tok2 e he
  exact ⟨by simp [create_flight_plan, he],
    get_current_user_error_status store secret now tok2 e he⟩

/-- Witness for C6: origin "kjfk" and destination "klax" are stored as
"KJFK" and "KLAX" in a plan tagged with the resolving user's id. -/
theorem c6_create_flight_plan_witness :
    create_flight_plan
        ⟨[{ toUser := { name := "Ann", email := "a@b.c", password_hash := "h" }, id := "7" }],
         [], [], 8⟩
        "dev-secret" 0
        { callsign := none, origin := "kjfk", destination := "klax",
          alternates := ["kbur"], route := none, departure_time := 1700000000,
          cruise_altitude := none, aircraft_type := none }
        (some (Jwt.signed ⟨some "a@b.c", 100⟩ "dev-secret")) =
      (.ok "8",
       { users := [{ toUser := { name := "Ann", email := "a@b.c", password_hash := "h" },
                     id := "7" }],
         flightplans :=
           [{ toFlightPlan :=
                { user_id := "7", callsign := none, origin := "KJFK",
                  destination := "KLAX", alternates := ["KBUR"], route := none,
                  departure_time := 1700000000, cruise_altitude := none,
                  aircraft_type := none },
              id := "8" }],
         briefings := [], nextId := 9 }) :=
  (c6_create_flight_plan
    ⟨[{ toUser := { name := "Ann", email := "a@b.c", password_hash := "h" }, id := "7" }],
     [], [], 8⟩
    "dev-secret" 0
    { callsign := none, origin := "kjfk", destination := "klax",
      alternates := ["kbur"], route := none, departure_time := 1700000000,
      cruise_altitude := none, aircraft_type := none }
    (some (Jwt.signed ⟨some "a@b.c", 100⟩ "dev-secret"))
    { toUser := { name := "Ann", email := "a@b.c", password_hash := "h" }, id := "7" }
    rfl (by decide) (by decide)).1

/-- C10: the flight-plan endpoint rejects, before any store write, any
body whose origin or destination length lies outside 3..4; alternates
are not length-validated: for every alternates list whatsoever, a body
with valid origin and destination and a resolving token is accepted and
the stored plan carries every alternate upper-cased. -/
theorem c10_alternates_unvalidated (store : Store) (secret : String)
    (now : Nat) (fp : FlightPlanIn) (token : Option Jwt) (u : StoredUser) :
    (¬(3 ≤ fp.origin.length ∧ fp.origin.length ≤ 4
        ∧ 3 ≤ fp.destination.length ∧ fp.destination.length ≤ 4) →
      create_flight_plan_endpoint store secret now fp token =
        (.error ⟨422, "Unprocessable Entity"⟩, store))
    ∧ ((3 ≤ fp.origin.length ∧ fp.origin.length ≤ 4
        ∧ 3 ≤ fp.destination.length ∧ fp.destination.length ≤ 4) →
      get_current_user store secret now token = .ok u →
      ∃ st, create_flight_plan_endpoint store secret now fp token =
          (.ok (toString store.nextId), st)
        ∧ st.flightplans = store.flightplans ++
            [{ toFlightPlan :=
                 { user_id := u.id,
                   callsign := fp.callsign,
                   origin := pyUpper fp.origin,
                   destination := pyUpper fp.destination,
                   alternates := fp.alternates.map pyUpper,
                   route := fp.route,
                   departure_time := fp.departure_time,
                   cruise_altitude := fp.cruise_altitude,
                   aircraft_type := fp.aircraft_type },
               id := toString store.nextId }]) := by
  constructor
  · intro hbad
    have hval : flightPlanIn_valid fp = false := by
      simp only [flightPlanIn_valid, Bool.and_eq_false_iff, decide_eq_false_iff_not]
      omega
    simp [create_flight_plan_endpoint, hval]
  · intro hgood hu
    have hval : flightPlanIn_valid fp = true := by
      simp [flightPlanIn_valid]
      omega
    refine ⟨{ store with
        flightplans := store.flightplans ++
          [{ toFlightPlan :=
               { user_id := u.id,
                 callsign := fp.callsign,
                 origin := pyUpper fp.origin,
                 destination := pyUpper fp.destination,
                 alternates := fp.alternates.map pyUpper,
                 route := fp.route,
                 departure_time := fp.departure_time,
                 cruise_altitude := fp.cruise_altitude,
                 aircraft_type := fp.aircraft_type },
             id := toString store.nextId }],
        nextId := store.nextId + 1 }, ?_, rfl⟩
    simp only [create_flight_plan_endpoint, hval, if_true]
    exact create_flight_plan_ok store secret now fp token u hu
      ⟨hgood.1, hgood.2.1⟩ ⟨hgood.2.2.1, hgood.2.2.2⟩

/-- Witness for C10: a 2-letter origin is rejected without touching the
store, while alternates of length 1 and 20 pass validation and are
stored upper-cased. -/
theorem c10_alternates_unvalidated_witness :
    create_flight_plan_endpoint
        ⟨[{ toUser := { name := "Ann", email := "a@b.c", password_hash := "h" }, id := "7" }],
         [], [], 8⟩
        "dev-secret" 0
        { callsign := none, origin := "kj", destination := "klax",
          alternates := [], route := none, departure_time := 0,
          cruise_altitude := none, aircraft_type := none }
        (some (Jwt.signed ⟨some "a@b.c", 100⟩ "dev-secret")) =
      (.error ⟨422, "Unprocessable Entity"⟩,
       ⟨[{ toUser := { name := "Ann", email := "a@b.c", password_hash := "h" }, id := "7" }],
        [], [], 8⟩)
    ∧ ∃ st, create_flight_plan_endpoint
          ⟨[{ toUser := { name := "Ann", email := "a@b.c", password_hash := "h" }, id := "7" }],
           [], [], 8⟩
          "dev-secret" 0
          { callsign := none, origin := "kjfk", destination := "klax",
            alternates := ["x", "averylongalternate##"], route := none,
            departure_time := 0, cruise_altitude := none, aircraft_type := none }
          (some (Jwt.signed ⟨some "a@b.c", 100⟩ "dev-secret")) =
        (.ok "8", st)
      ∧ st.flightplans = [] ++
          [{ toFlightPlan :=
               { user_id := "7", callsign := none, origin := "KJFK",
                 destination := "KLAX",
                 alternates := ["X", "AVERYLONGALTERNATE##"], route := none,
                 departure_time := 0, cruise_altitude := none,
                 aircraft_type := none },
             id := "8" }] :=
  ⟨(c10_alternates_unvalidated
      ⟨[{ toUser := { name := "Ann", email := "a@b.c", password_hash := "h" }, id := "7" }],
       [], [], 8⟩
      "dev-secret" 0
      { callsign := none, origin := "kj", destination := "klax",
        alternates := [], route := none, departure_time := 0,
        cruise_altitude := none, aircraft_type := none }
      (some (Jwt.signed ⟨some "a@b.c", 100⟩ "dev-secret"))
      { toUser := { name := "Ann", email := "a@b.c", password_hash := "h" }, id := "7" }).1
    (by decide),
   (c10_alternates_unvalidated
      ⟨[{ toUser := { name := "Ann", email := "a@b.c", password_hash := "h" }, id := "7" }],
       [], [], 8⟩
      "dev-secret" 0
      { callsign := none, origin := "kjfk", destination := "klax",
        alternates := ["x", "averylongalternate##"], route := none,
        departure_time := 0, cruise_altitude := none, aircraft_type := none }
      (some (Jwt.signed ⟨some "a@b.c", 100⟩ "dev-secret"))
      { toUser := { name := "Ann", email := "a@b.c", password_hash := "h" }, id := "7" }).2
    (by decide) rfl⟩

/-- C8: the dashboard of a resolved user lists only flight plans owned by
that user, at most 20 of them; a user owning no plan gets an empty list;
and the user summary always carries the user's name and email. -/
theorem c8_dashboard (store : Store) (secret : String) (now : Nat)
    (token : Option Jwt) (u : StoredUser)
    (hu : get_current_user store secret now token = .ok u) :
    ∃ resp, dashboard store secret now token = .ok resp
      ∧ resp.user_name = u.name ∧ resp.user_email = u.email
      ∧ (∀ p ∈ resp.recent_plans, p.user_id = u.id)
      ∧ resp.recent_plans.length ≤ 20
      ∧ ((∀ p ∈ store.flightplans, p.user_id ≠ u.id) →
          resp.recent_plans = []) := by
  refine ⟨{ user_name := u.name, user_email := u.email,
            recent_plans := get_documents_flightplan_by_user store u.id 20 },
    by simp [dashboard, hu], rfl, rfl, ?_, ?_, ?_⟩
  · intro p hp
    have hmem := List.mem_filter.mp
      (List.mem_of_mem_take (l := store.flightplans.filter (fun q => q.user_id == u.id)) hp)
    simpa using hmem.2
  · exact List.length_take_le 20 (store.flightplans.filter (fun q => q.user_id == u.id))
  · intro hnone
    have hq : store.flightplans.filter (fun q => q.user_id == u.id) = [] :=
      List.filter_eq_nil_iff.mpr (fun q hqmem => by simpa using hnone q hqmem)
    simp [get_documents_flightplan_by_user, hq]

/-- Witness for C8: a user with zero flight plans (the only stored plan
belongs to someone else) gets an empty plan list and the correct
summary. -/
theorem c8_dashboard_witness :
    ∃ resp, dashboard
        ⟨[{ toUser := { name := "Ann", email := "a@b.c", password_hash := "h" }, id := "7" }],
         [{ toFlightPlan :=
              { user_id := "99", callsign := none, origin := "KJFK",
                destination := "KLAX", alternates := [], route := none,
                departure_time := 0, cruise_altitude := none,
                aircraft_type := none },
            id := "3" }],
         [], 8⟩
        "dev-secret" 0 (some (Jwt.signed ⟨some "a@b.c", 100⟩ "dev-secret")) = .ok resp
      ∧ resp.user_name = "Ann" ∧ resp.user_email = "a@b.c"
      ∧ (∀ p ∈ resp.recent_plans, p.user_id = "7")
      ∧ resp.recent_plans.length ≤ 20
      ∧ ((∀ p ∈ Store.flightplans
            ⟨[{ toUser := { name := "Ann", email := "a@b.c", password_hash := "h" }, id := "7" }],
             [{ toFlightPlan :=
                  { user_id := "99", callsign := none, origin := "KJFK",
                    destination := "KLAX", alternates := [], route := none,
                    departure_time := 0, cruise_altitude := none,
                    aircraft_type := none },
                id := "3" }],
             [], 8⟩, p.user_id ≠ "7") →
          resp.recent_plans = []) :=
  c8_dashboard
    ⟨[{ toUser := { name := "Ann", email := "a@b.c", password_hash := "h" }, id := "7" }],
     [{ toFlightPlan :=
          { user_id := "99", callsign := none, origin := "KJFK",
            destination := "KLAX", alternates := [], route := none,
            departure_time := 0, cruise_altitude := none,
            aircraft_type := none },
        id := "3" }],
     [], 8⟩
    "dev-secret" 0 (some (Jwt.signed ⟨some "a@b.c", 100⟩ "dev-secret"))
    { toUser := { name := "Ann", email := "a@b.c", password_hash := "h" }, id := "7" }
    rfl

/-- Successful briefing generation, fully described: shared workhorse for
the claims about `generate_briefing`. -/
theorem generate_briefing_ok (store : Store) (secret : String) (now : Nat)
    (fpid : String) (token : Option Jwt) (u : StoredUser)
    (hu : get_current_user store secret now token = .ok u)
    (hp : ∃ p ∈ store.flightplans, p.id = ensure_objectid fpid) :
    ∃ st, generate_briefing store secret now fpid token =
        (.ok { id := toString store.nextId, summary := briefing_summary,
               risk := "MEDIUM" }, st)
      ∧ ∃ b, st.briefings = store.briefings ++ [b]
          ∧ b.user_id = u.id ∧ b.flight_plan_id = fpid
          ∧ b.summary = briefing_summary ∧ b.risk_level = "MEDIUM" := by
  obtain ⟨p, hpmem, hpid⟩ := hp
  rcases hq : store.flightplans.filter (fun q => q.id == ensure_objectid fpid)
    with _ | ⟨q, rest⟩
  · exact absurd ((List.filter_eq_nil_iff.mp hq) p hpmem) (by simp [hpid])
  · refine ⟨{ store with
        briefings := store.briefings ++
          [{ toBriefing := placeholder_briefing u.id fpid,
             id := toString store.nextId }],
        nextId := store.nextId + 1 }, ?_, ?_⟩
    · simp [generate_briefing, hu, get_documents_flightplan_by_id, hq,
        create_document_briefing, placeholder_briefing]
    · exact ⟨{ toBriefing := placeholder_briefing u.id fpid,
               id := toString store.nextId }, rfl, rfl, rfl, rfl, rfl⟩

/-- C4: briefing generation looks the flight plan up by id alone — it
succeeds for any resolved user, with no constraint tying that user to the
plan's owner — and the stored briefing is tagged with the requesting
user's id, not the plan's owner id. -/
theorem c4_briefing_no_owner_filter (store : Store) (secret : String)
    (now : Nat) (token : Option Jwt) (u : StoredUser) (plan : StoredFlightPlan)
    (hu : get_current_user store secret now token = .ok u)
    (hp : plan ∈ store.flightplans) :
    ∃ st, generate_briefing store secret now plan.id token =
        (.ok { id := toString store.nextId, summary := briefing_summary,
               risk := "MEDIUM" }, st)
      ∧ ∃ b, st.briefings = store.briefings ++ [b]
          ∧ b.user_id = u.id ∧ b.flight_plan_id = plan.id :=
  match generate_briefing_ok store secret now plan.id token u hu
    ⟨plan, hp, rfl⟩ with
  | ⟨st, h1, b, h2, h3, h4, _, _⟩ => ⟨st, h1, b, h2, h3, h4⟩

/-- Witness for C4: user "2" (not the owner) requests a briefing for a
plan owned by user "1"; the call succeeds and the stored briefing is
tagged with "2". -/
theorem c4_briefing_no_owner_filter_witness :
    ("2" : String) ≠ "1"
    ∧ ∃ st, generate_briefing
          ⟨[{ toUser := { name := "Ann", email := "a@b.c", password_hash := "h" }, id := "1" },
            { toUser := { name := "Bob", email := "b@b.c", password_hash := "h" }, id := "2" }],
           [{ toFlightPlan :=
                { user_id := "1", callsign := none, origin := "KJFK",
                  destination := "KLAX", alternates := [], route := none,
                  departure_time := 0, cruise_altitude := none,
                  aircraft_type := none },
              id := "10" }],
           [], 11⟩
          "dev-secret" 0 "10"
          (some (Jwt.signed ⟨some "b@b.c", 100⟩ "dev-secret")) =
        (.ok { id := "11", summary := briefing_summary, risk := "MEDIUM" }, st)
      ∧ ∃ b, st.briefings = [] ++ [b]
          ∧ b.user_id = "2" ∧ b.flight_plan_id = "10" :=
  ⟨by decide,
   c4_briefing_no_owner_filter
     ⟨[{ toUser := { name := "Ann", email := "a@b.c", password_hash := "h" }, id := "1" },
       { toUser := { name := "Bob", email := "b@b.c", password_hash := "h" }, id := "2" }],
      [{ toFlightPlan :=
           { user_id := "1", callsign := none, origin := "KJFK",
             destination := "KLAX", alternates := [], route := none,
             departure_time := 0, cruise_altitude := none,
             aircraft_type := none },
         id := "10" }],
      [], 11⟩
     "dev-secret" 0
     (some (Jwt.signed ⟨some "b@b.c", 100⟩ "dev-secret"))
     { toUser := { name := "Bob", email := "b@b.c", password_hash := "h" }, id := "2" }
     { toFlightPlan :=
         { user_id := "1", callsign := none, origin := "KJFK",
           destination := "KLAX", alternates := [], route := none,
           departure_time := 0, cruise_altitude := none,
           aircraft_type := none },
       id := "10" }
     rfl (by simp)⟩

/-- C7: an authenticated briefing request for an id matching no stored
plan fails with 404 and leaves the store unchanged (no briefing stored);
for an existing plan id it succeeds with a risk level in
{LOW, MEDIUM, HIGH} and a non-empty summary. -/
theorem c7_briefing_not_found (store : Store) (secret : String) (now : Nat)
    (token : Option Jwt) (u : StoredUser) (fpid : String)
    (hu : get_current_user store secret now token = .ok u) :
    ((∀ p ∈ store.flightplans, p.id ≠ ensure_objectid fpid) →
      generate_briefing store secret now fpid token =
        (.error ⟨404, "Flight plan not found"⟩, store))
    ∧ ((∃ p ∈ store.flightplans, p.id = ensure_objectid fpid) →
      ∃ st resp, generate_briefing store secret now fpid token = (.ok resp, st)
        ∧ (resp.risk = "LOW" ∨ resp.risk = "MEDIUM" ∨ resp.risk = "HIGH")
        ∧ resp.summary ≠ "") := by
  constructor
  · intro hnone
    have hq : store.flightplans.filter (fun q => q.id == ensure_objectid fpid) = [] :=
      List.filter_eq_nil_iff.mpr (fun q hqmem => by simpa using hnone q hqmem)
    simp [generate_briefing, hu, get_documents_flightplan_by_id, hq]
  · intro hp
    obtain ⟨st, h1, -⟩ := generate_briefing_ok store secret now fpid token u hu hp
    exact ⟨st, { id := toString store.nextId, summary := briefing_summary,
                 risk := "MEDIUM" }, h1, Or.inr (Or.inl rfl),
      (by decide : briefing_summary ≠ "")⟩

/-- Witness for C7: with no stored flight plan, a briefing request for id
"99" fails with 404 and the store is returned unchanged. -/
theorem c7_briefing_not_found_witness :
    generate_briefing
        ⟨[{ toUser := { name := "Ann", email := "a@b.c", password_hash := "h" }, id := "7" }],
         [], [], 8⟩
        "dev-secret" 0 "99"
        (some (Jwt.signed ⟨some "a@b.c", 100⟩ "dev-secret")) =
      (.error ⟨404, "Flight plan not found"⟩,
       ⟨[{ toUser := { name := "Ann", email := "a@b.c", password_hash := "h" }, id := "7" }],
        [], [], 8⟩) :=
  (c7_briefing_not_found
    ⟨[{ toUser := { name := "Ann", email := "a@b.c", password_hash := "h" }, id := "7" }],
     [], [], 8⟩
    "dev-secret" 0
    (some (Jwt.signed ⟨some "a@b.c", 100⟩ "dev-secret"))
    { toUser := { name := "Ann", email := "a@b.c", password_hash := "h" }, id := "7" }
    "99" rfl).1 (by simp)

end WeathAware
